import Mathlib

/-!
Verification of the request-admission and egress-safety layer: the
`SecurityMiddleware` of `src/webapp/middleware/security.py` and the
`RateLimitMiddleware` of `src/webapp/middleware/rate_limit.py`, shallowly
embedded as pure Lean functions.  External effects (URL parsing by
`urllib.parse.urlparse`, DNS resolution by `socket.gethostbyname`,
JSON decoding by `json.loads`) are supplied through an explicit
environment record; the Redis counter backend is an explicit state value
threaded through the functions.
-/

namespace DealScan

/-! ### Python string primitives

The middleware uses `str.lower()`, `str.strip()` and `str.split(",")`.
They are embedded here over `List Char` by structural recursion (ASCII
case folding and ASCII whitespace, which covers every string the
middleware manipulates). -/

/-- ASCII case folding of one character, as `str.lower()` does on ASCII. -/
def lowerChar (c : Char) : Char :=
  if 'A' ≤ c ∧ c ≤ 'Z' then Char.ofNat (c.toNat + 32) else c

/-- Embedding of Python `s.lower()` (ASCII range). -/
def lowerStr (s : String) : String := List.asString (s.data.map lowerChar)

/-- ASCII whitespace, as stripped by Python `str.strip()`. -/
def isSpaceChar (c : Char) : Bool := c = ' ' || c = '\t' || c = '\n' || c = '\r'

/-- Drop leading whitespace characters. -/
def dropSpaces : List Char → List Char
  | [] => []
  | c :: cs => if isSpaceChar c then dropSpaces cs else c :: cs

/-- Embedding of Python `s.strip()`: whitespace removed from both ends. -/
def stripStr (s : String) : String :=
  List.asString (dropSpaces (dropSpaces s.data.reverse).reverse)

/-- Splitting a character list at commas; like Python `str.split(",")` the
result is never empty (splitting the empty string gives `[""]`). -/
def splitCommaAux : List Char → List (List Char)
  | [] => [[]]
  | c :: cs =>
    match splitCommaAux cs with
    | [] => [[c]]
    | h :: t => if c = ',' then [] :: h :: t else (c :: h) :: t

/-- Embedding of Python `s.split(",")`. -/
def splitComma (s : String) : List String :=
  (splitCommaAux s.data).map List.asString

/-! ### security.py: data -/

/-- An IPv4 address, four octets.  `socket.gethostbyname` only ever
returns IPv4 addresses, so IPv4 is the address type flowing into the
private-range check of `_is_safe_url`. -/
structure IPv4 where
  a : Nat
  b : Nat
  c : Nat
  d : Nat
deriving DecidableEq, Repr

/-- Membership of an IPv4 address in the `PRIVATE_NETWORKS` list of
`security.py`: `10.0.0.0/8`, `172.16.0.0/12`, `192.168.0.0/16`,
`127.0.0.0/8`.  The three IPv6 entries of that list can never contain an
IPv4 address (`ipaddress` version-mismatch containment is false), so they
contribute nothing to the check on a `gethostbyname` result. -/
def isPrivateAddress (ip : IPv4) : Bool :=
  ip.a = 10 ||
  (ip.a = 172 && 16 ≤ ip.b && ip.b ≤ 31) ||
  (ip.a = 192 && ip.b = 168) ||
  ip.a = 127

/-- `ALLOWED_DOMAINS` of `security.py` (its initial contents; the set is
mutable through `add_allowed_domain`, so the validation functions below
take the current set as part of the environment). -/
def ALLOWED_DOMAINS : List String :=
  ["govdeals.com", "www.govdeals.com",
   "publicsurplus.com", "www.publicsurplus.com",
   "municibid.com", "www.municibid.com"]

/-- `SECURITY_HEADERS` of `security.py`.  (`\x27` is the ASCII apostrophe
inside the content-security-policy value.) -/
def SECURITY_HEADERS : List (String × String) :=
  [("X-Content-Type-Options", "nosniff"),
   ("X-Frame-Options", "DENY"),
   ("X-XSS-Protection", "1; mode=block"),
   ("Referrer-Policy", "strict-origin-when-cross-origin"),
   ("Content-Security-Policy",
    "default-src \x27self\x27; img-src \x27self\x27 data: https:; connect-src \x27self\x27; script-src \x27self\x27 \x27unsafe-inline\x27; style-src \x27self\x27 \x27unsafe-inline\x27"),
   ("Strict-Transport-Security", "max-age=31536000; includeSubDomains; preload")]

/-- Result of `urllib.parse.urlparse` as consumed by `_is_safe_url`: the
scheme and the (lowercased) hostname, which `urlparse` reports as absent
(`None`) when the URL has no host. -/
structure ParsedURL where
  scheme : String
  hostname : Option String

/-- A decoded JSON value as consumed by `_has_ssrf_risk`: only
object-shaped payloads and string leaves matter; everything else is
collapsed into `other`. -/
inductive JValue where
  | str (s : String)
  | obj (fields : List (String × JValue))
  | other

/-- The external effects of `security.py`, made explicit:
`parse u = none` models `urlparse` raising; `dns h` is the full list of
addresses the name resolves to at validation time (`[]` models
`socket.gaierror`), of which `gethostbyname` returns the first;
`parseJson b = none` models `json.loads` raising `JSONDecodeError`;
`allowed` is the current state of the mutable `ALLOWED_DOMAINS` set. -/
structure Env where
  parse : String → Option ParsedURL
  dns : String → List IPv4
  parseJson : String → Option JValue
  allowed : List String

/-! ### security.py: operations -/

/-- Embedding of `SecurityMiddleware._is_safe_url`.  Mirrors the source
line by line: parse (exception gives `False`), scheme must be http or
https, hostname must be truthy and in the allowed set,
`socket.gethostbyname` (the first address of the resolution, `none` on
failure gives `False`), and the single returned address must lie in no
private network. -/
def is_safe_url (env : Env) (url : String) : Bool :=
  match env.parse url with
  | none => false
  | some parsed =>
    if ¬ (parsed.scheme = "http" ∨ parsed.scheme = "https") then false
    else
      match parsed.hostname with
      | none => false
      | some hostname =>
        if hostname = "" ∨ ¬ env.allowed.contains hostname then false
        else
          match (env.dns hostname).head? with
          | none => false
          | some ip => !(isPrivateAddress ip)

/-- The URL-indicating field names `('url', 'link', 'redirect', 'callback')`
of `_has_ssrf_risk`. -/
def URL_KEYS : List String := ["url", "link", "redirect", "callback"]

/-- An inbound HTTP request as seen by the two middlewares: header lookup
(by the lowercase header name, as Starlette's case-insensitive `Headers`
resolves it), query parameters, raw body, URL path, the transport peer
address (`request.client.host`, absent when there is no client), and the
already-converted `content-length` value. -/
structure Request where
  headers : String → Option String
  queryParams : List (String × String)
  body : String
  path : String
  client : Option String
  contentLength : Option Nat

/-- Embedding of `SecurityMiddleware._has_ssrf_risk`: any query parameter
whose lowercased key is URL-indicating and whose value is unsafe flags the
request; then, only when the `content-type` header is exactly
`application/json` and the body is non-empty, the body is decoded — a
decode failure is swallowed (`except ... pass`) — and the top-level string
fields of an object payload are checked the same way. -/
def has_ssrf_risk (env : Env) (req : Request) : Bool :=
  (req.queryParams.any fun kv =>
    URL_KEYS.contains (lowerStr kv.1) && !(is_safe_url env kv.2)) ||
  (if req.headers "content-type" = some "application/json" then
    if req.body = "" then false
    else
      match env.parseJson req.body with
      | none => false
      | some (JValue.obj fields) =>
        fields.any fun kv =>
          match kv.2 with
          | JValue.str s => URL_KEYS.contains (lowerStr kv.1) && !(is_safe_url env s)
          | _ => false
      | some _ => false
   else false)

/-- An HTTP response: status code, the explicitly set headers (in
insertion order; framework-implicit headers such as the JSON content type
are not modelled), and, for the rate-limit rejection, the `retry_after`
field of its JSON body. -/
structure Response where
  status : Nat
  headers : List (String × String)
  retryAfterBody : Option Nat
deriving DecidableEq, Repr

/-- Embedding of `SecurityMiddleware.dispatch`: reject oversized requests
with 413, reject SSRF-risky requests with 400 — both early returns carry
only the headers `JSONResponse` itself sets — and otherwise forward to the
inner application and append the security headers to its response. -/
def security_dispatch (env : Env) (req : Request)
    (call_next : Request → Response) : Response :=
  match req.contentLength with
  | some n =>
    if n > 10 * 1024 * 1024 then { status := 413, headers := [], retryAfterBody := none }
    else if has_ssrf_risk env req then { status := 400, headers := [], retryAfterBody := none }
    else
      let response := call_next req
      { response with headers := response.headers ++ SECURITY_HEADERS }
  | none =>
    if has_ssrf_risk env req then { status := 400, headers := [], retryAfterBody := none }
    else
      let response := call_next req
      { response with headers := response.headers ++ SECURITY_HEADERS }

/-! ### rate_limit.py: client identity -/

/-- A header lookup with Python truthiness: the walrus test
`if ip := request.headers.get(header)` succeeds only when the header is
present with a non-empty value. -/
def truthyHeader (req : Request) (name : String) : Option String :=
  match req.headers name with
  | none => none
  | some v => if v = "" then none else some v

/-- The trusted edge headers checked first by `extract_client_ip`, in
source order. -/
def EDGE_HEADERS : List String := ["cf-connecting-ip", "true-client-ip", "x-real-ip"]

/-- The `for header in [...]` loop of `extract_client_ip`: the first
truthy header value in list order. -/
def firstTruthy (req : Request) : List String → Option String
  | [] => none
  | h :: hs =>
    match truthyHeader req h with
    | some v => some v
    | none => firstTruthy req hs

/-- Embedding of `extract_client_ip` of `rate_limit.py`: first truthy
edge header (stripped), else the last entry of a truthy
`x-forwarded-for` chain (stripped), else the transport peer address,
else the sentinel `"unknown"`. -/
def extract_client_ip (req : Request) : String :=
  match firstTruthy req EDGE_HEADERS with
  | some ip => stripStr ip
  | none =>
    match truthyHeader req "x-forwarded-for" with
    | some forwarded => stripStr ((splitComma forwarded).getLast?.getD "")
    | none =>
      match req.client with
      | some host => host
      | none => "unknown"

/-! ### rate_limit.py: configuration and counter store -/

/-- `self.window_size` of `RateLimitMiddleware.__init__` (seconds). -/
def window_size : Nat := 60

/-- `self.default_limit` of `RateLimitMiddleware.__init__`. -/
def default_limit : Nat := 100

/-- `self.route_limits` of `RateLimitMiddleware.__init__`. -/
def route_limits : List (String × Nat) :=
  [("/auth/login", 5), ("/upload", 10), ("/opportunities", 50),
   ("/vehicles", 50), ("/ml/predict", 20)]

/-- `self.route_limits.get(route, self.default_limit)`. -/
def routeLimit (route : String) : Nat :=
  ((route_limits.find? fun kv => kv.1 = route).map Prod.snd).getD default_limit

/-- The Redis backend as the rate limiter sees it: a reachability flag
(`available = false` makes every pipeline operation raise) and the
integer counters, with an absent key reading as 0 so that `INCR` of an
absent key yields 1.  The expiry times attached by `EXPIRE` and the
`rate_limit_violations` monitoring list are not modelled: expiry only
garbage-collects keys of lapsed windows (the window start baked into
each key already separates windows), and the violation list is
write-only telemetry. -/
structure CounterStore where
  available : Bool
  counters : String → Nat

/-- The per-IP counter key `f"rl:ip:{ip}:{window_start}"`. -/
def ipKey (ip : String) (w : Nat) : String :=
  "rl:ip:" ++ ip ++ ":" ++ Nat.repr w

/-- The per-route counter key `f"rl:route:{route}:{window_start}"`. -/
def routeKey (route : String) (w : Nat) : String :=
  "rl:route:" ++ route ++ ":" ++ Nat.repr w

/-- The per-user counter key `f"rl:user:{user_id}:{window_start}"`. -/
def userKey (uid : Nat) (w : Nat) : String :=
  "rl:user:" ++ Nat.repr uid ++ ":" ++ Nat.repr w

/-- The key list built by `_is_rate_limited`: per-IP, per-route, and —
only when `if user_id:` is truthy, which excludes both `None` and `0` —
per-user. -/
def rlKeys (ip : String) (uid : Option Nat) (route : String) (w : Nat) : List String :=
  [ipKey ip w, routeKey route w] ++
    (match uid with
     | some u => if u = 0 then [] else [userKey u w]
     | none => [])

/-- Redis `INCR`. -/
def incr (c : String → Nat) (k : String) : String → Nat :=
  fun k' => if k' = k then c k + 1 else c k'

/-- Executing the queued pipeline `INCR key; EXPIRE key ...` pairs in
order: the result list interleaves each new counter value with the
`EXPIRE` acknowledgement (1), exactly the shape `pipe.execute()`
returns to the caller. -/
def pipelineExec (c : String → Nat) : List String → List Nat × (String → Nat)
  | [] => ([], c)
  | k :: ks =>
    (incr c k k :: 1 :: (pipelineExec (incr c k) ks).1,
     (pipelineExec (incr c k) ks).2)

/-- The check loop `for i in range(0, len(results), 2)` of
`_is_rate_limited`: inspect the even-indexed results (the `INCR`
replies) and trip on the first one exceeding the limit. -/
def checkEvens (limit : Nat) : List Nat → Bool
  | [] => false
  | [count] => decide (count > limit)
  | count :: _ :: rest => decide (count > limit) || checkEvens limit rest

/-- Embedding of `RateLimitMiddleware._is_rate_limited` at clock reading
`now` (`int(time.time())`): compute the window start and the route
limit, increment all keys through one pipeline, and trip if any
post-increment count exceeds the limit.  Any Redis failure is caught and
answered with `False`, the store untouched (the pipeline raises at
`execute`, before anything is applied). -/
def is_rate_limited (store : CounterStore) (ip : String) (uid : Option Nat)
    (route : String) (now : Nat) : Bool × CounterStore :=
  let window_start := now - now % window_size
  let limit := routeLimit route
  let keys := rlKeys ip uid route window_start
  if store.available then
    let (results, cFinal) := pipelineExec store.counters keys
    (checkEvens limit results, { store with counters := cFinal })
  else
    (false, store)

/-- Embedding of `RateLimitMiddleware.dispatch`.  `connected` is whether
a Redis client is (or can be) established at entry: when it cannot, the
middleware bypasses rate limiting entirely (`return await
call_next(request)`).  Otherwise the three identifiers are extracted and
a limited request is answered with the fixed 429 response carrying
`retry_after` in its body and a `Retry-After` header, both equal to the
window size. -/
def rl_dispatch (connected : Bool) (store : CounterStore) (req : Request)
    (uid : Option Nat) (now : Nat) (call_next : Request → Response) :
    Response × CounterStore :=
  if ¬ connected then (call_next req, store)
  else
    let checked := is_rate_limited store (extract_client_ip req) uid req.path now
    if checked.1 then
      ({ status := 429,
         headers := [("Retry-After", Nat.repr window_size)],
         retryAfterBody := some window_size }, checked.2)
    else (call_next req, checked.2)

/-- The key list read by `get_rate_limit_status`: the per-IP key and —
when `if user_id:` is truthy — the per-user key.  (Unlike the enforcement
path, the status path never reads the per-route key.) -/
def statusKeys (ip : String) (uid : Option Nat) (w : Nat) : List String :=
  [ipKey ip w] ++
    (match uid with
     | some u => if u = 0 then [] else [userKey u w]
     | none => [])

/-- The dictionary returned by `get_rate_limit_status`: either the full
record of the normal path or the degraded `{"available": ..., "limit": ...}`
record of the no-client and exception paths. -/
inductive StatusResult where
  | full (limit used remaining resetTime : Nat) (available : Bool)
  | degraded (available : Bool) (limit : Nat)
deriving DecidableEq, Repr

/-- Embedding of `RateLimitMiddleware.get_rate_limit_status`: without a
Redis client, a degraded record with the default limit; otherwise `MGET`
of the per-IP key and (when `if user_id:` is truthy) the per-user key,
`used` being the maximum of the fetched counts (an absent key reading
as 0); a Redis failure degrades to `{"available": True, "limit": limit}`.
No command other than `MGET` is issued, so the counters are never
written. -/
def get_rate_limit_status (connected : Bool) (store : CounterStore)
    (ip : String) (uid : Option Nat) (route : String) (now : Nat) :
    StatusResult × CounterStore :=
  if ¬ connected then (.degraded true default_limit, store)
  else
    let window_start := now - now % window_size
    let limit := routeLimit route
    let keys := statusKeys ip uid window_start
    if store.available then
      let counts := keys.map store.counters
      let max_count := counts.foldl max 0
      (.full limit max_count (limit - max_count) (window_start + window_size)
        (decide (max_count < limit)), store)
    else
      (.degraded true limit, store)

/-- The `max((int(c) if c else 0) for c in counts)` value that
`get_rate_limit_status` reports as `used`. -/
def statusUsed (store : CounterStore) (ip : String) (uid : Option Nat) (now : Nat) : Nat :=
  ((statusKeys ip uid (now - now % window_size)).map store.counters).foldl max 0

/-! ### Specification-side definitions and concrete fixtures -/

/-- The URL-safety predicate as the specification words it (§4.3 steps
1–5): scheme in {http, https}, hostname present and allow-listed, at
least one resolved address, and **every** resolved address outside the
private ranges (a multi-address result rejected wholesale if even one
candidate is private).  Stated for comparison with `is_safe_url`, which
is the embedding of the source. -/
def is_safe_url_spec (env : Env) (url : String) : Bool :=
  match env.parse url with
  | none => false
  | some parsed =>
    match parsed.hostname with
    | none => false
    | some hostname =>
      (parsed.scheme = "http" || parsed.scheme = "https") &&
      env.allowed.contains hostname &&
      !(env.dns hostname).isEmpty &&
      (env.dns hostname).all fun ip => !(isPrivateAddress ip)

/-- `j` consecutive requests of the same identity against the same route
at clock reading `now`, threading the counter store. -/
def runN (store : CounterStore) (ip : String) (uid : Option Nat)
    (route : String) (now : Nat) : Nat → CounterStore
  | 0 => store
  | j + 1 => (is_rate_limited (runN store ip uid route now j) ip uid route now).2

/-- A counter store that is reachable and empty. -/
def emptyStore : CounterStore := { available := true, counters := fun _ => 0 }

/-- A passthrough inner-application response used by concrete scenarios. -/
def okResponse : Response := { status := 200, headers := [], retryAfterBody := none }

/-- Environment for the C1 scenario: one URL that parses to an http URL
on the allow-listed host `govdeals.com`, which resolves to two
addresses — a public one first and the private `10.0.0.5` second. -/
def c1Env : Env :=
  { parse := fun u =>
      if u = "http://govdeals.com/item" then some ⟨"http", some "govdeals.com"⟩ else none,
    dns := fun h =>
      if h = "govdeals.com" then [⟨142, 250, 72, 14⟩, ⟨10, 0, 0, 5⟩] else [],
    parseJson := fun _ => none,
    allowed := ALLOWED_DOMAINS }

/-- The C4 scenario: five requests of IP `9.9.9.9` against `/vehicles`
inside the window starting at 0, starting from an empty store. -/
def c4Store : CounterStore := runN emptyStore "9.9.9.9" none "/vehicles" 0 5

/-- Environment for the C5 scenario: JSON decoding always fails. -/
def c5Env : Env :=
  { parse := fun _ => none, dns := fun _ => [],
    parseJson := fun _ => none, allowed := ALLOWED_DOMAINS }

/-- A request declaring a JSON body that does not parse, with no query
parameters at all. -/
def c5Req : Request :=
  { headers := fun h => if h = "content-type" then some "application/json" else none,
    queryParams := [], body := "\x7bnot json", path := "/ingest", client := none,
    contentLength := none }

/-- Environment for the C6 scenario: the candidate URL parses with
scheme `file`, hence is unsafe. -/
def c6Env : Env :=
  { parse := fun u =>
      if u = "file:///etc/passwd" then some ⟨"file", none⟩ else none,
    dns := fun _ => [], parseJson := fun _ => none, allowed := ALLOWED_DOMAINS }

/-- A request whose `url` query parameter is the unsafe candidate. -/
def c6Req : Request :=
  { headers := fun _ => none, queryParams := [("url", "file:///etc/passwd")],
    body := "", path := "/fetch", client := none, contentLength := none }

/-- A request carrying both a trusted edge header (with surrounding
whitespace) and a disagreeing forwarding chain. -/
def c7Req : Request :=
  { headers := fun h =>
      if h = "cf-connecting-ip" then some " 1.2.3.4 "
      else if h = "x-forwarded-for" then some "9.9.9.9, 8.8.8.8"
      else none,
    queryParams := [], body := "", path := "/opportunities",
    client := some "172.17.0.2", contentLength := none }

/-- A plain request whose only identity information is the transport
peer address. -/
def c2Req : Request :=
  { headers := fun _ => none, queryParams := [], body := "", path := "/auth/login",
    client := some "1.2.3.4", contentLength := none }

/-- Environment for the C10 scenario: the body decodes to an object
whose `url` field would be unsafe (nothing parses as a URL). -/
def c10Env : Env :=
  { parse := fun _ => none, dns := fun _ => [],
    parseJson := fun b =>
      if b = "\x7b...\x7d" then some (JValue.obj [("url", JValue.str "http://evil.internal/")])
      else none,
    allowed := ALLOWED_DOMAINS }

/-- A request whose content type is `application/json; charset=utf-8`
(not the exact string compared by the source) and whose body contains an
unsafe URL under the `url` field. -/
def c10Req : Request :=
  { headers := fun h =>
      if h = "content-type" then some "application/json; charset=utf-8" else none,
    queryParams := [], body := "\x7b...\x7d", path := "/ingest", client := none,
    contentLength := none }

/-! ### Decimal representation: `Nat.repr` is injective

The counter keys embed the window start through Python decimal
formatting, embedded as `Nat.repr`.  Distinctness of keys across windows
reduces to injectivity of the decimal representation, proved here from
the fuel-based `Nat.toDigitsCore`. -/

/-- The numeric value of a decimal digit character. -/
def digitVal (c : Char) : Nat := c.toNat - 48

/-- Reading a digit string back into a number, most significant first,
on top of an accumulator. -/
def valFrom (a : Nat) (l : List Char) : Nat :=
  l.foldl (fun acc c => 10 * acc + digitVal c) a

theorem digitVal_digitChar {m : Nat} (h : m < 10) :
    digitVal (Nat.digitChar m) = m := by
  have hall : ∀ m, m < 10 → digitVal (Nat.digitChar m) = m := by decide
  exact hall m h

theorem toDigitsCore_acc :
    ∀ (f n : Nat) (acc : List Char), n < f →
      Nat.toDigitsCore 10 f n acc = Nat.toDigitsCore 10 f n [] ++ acc := by
  intro f
  induction f with
  | zero => intro n acc h; omega
  | succ f ih =>
    intro n acc _
    simp only [Nat.toDigitsCore]
    by_cases h10 : n / 10 = 0
    · simp [h10]
    · have hlt : n / 10 < f := by omega
      simp only [h10, if_false]
      rw [ih (n / 10) (Nat.digitChar (n % 10) :: acc) hlt,
          ih (n / 10) [Nat.digitChar (n % 10)] hlt]
      simp

theorem toDigitsCore_fuel :
    ∀ (f f' n : Nat), n < f → n < f' →
      Nat.toDigitsCore 10 f n [] = Nat.toDigitsCore 10 f' n [] := by
  intro f
  induction f with
  | zero => intro f' n h; omega
  | succ f ih =>
    intro f' n hf hf'
    cases f' with
    | zero => omega
    | succ f' =>
      simp only [Nat.toDigitsCore]
      by_cases h10 : n / 10 = 0
      · simp [h10]
      · have h1 : n / 10 < f := by omega
        have h2 : n / 10 < f' := by omega
        simp only [h10, if_false]
        rw [toDigitsCore_acc f (n / 10) [Nat.digitChar (n % 10)] h1,
            toDigitsCore_acc f' (n / 10) [Nat.digitChar (n % 10)] h2,
            ih f' (n / 10) h1 h2]

theorem toDigits_small {n : Nat} (h : n < 10) :
    Nat.toDigits 10 n = [Nat.digitChar n] := by
  have h10 : n / 10 = 0 := by omega
  have hmod : n % 10 = n := by omega
  simp [Nat.toDigits, Nat.toDigitsCore, h10, hmod]

theorem toDigits_large {n : Nat} (h : 10 ≤ n) :
    Nat.toDigits 10 n =
      Nat.toDigits 10 (n / 10) ++ [Nat.digitChar (n % 10)] := by
  have h10 : ¬ (n / 10 = 0) := by omega
  have hlt : n / 10 < n := by omega
  show Nat.toDigitsCore 10 (n + 1) n [] = _
  simp only [Nat.toDigitsCore, h10, if_false]
  rw [toDigitsCore_acc n (n / 10) [Nat.digitChar (n % 10)] hlt]
  rw [toDigitsCore_fuel n (n / 10 + 1) (n / 10) hlt (Nat.lt_succ_self _)]
  rfl

theorem valFrom_toDigits (n : Nat) :
    ∀ a : Nat,
      valFrom a (Nat.toDigits 10 n) = a * 10 ^ (Nat.toDigits 10 n).length + n := by
  induction n using Nat.strong_induction_on with
  | _ n ih =>
    intro a
    by_cases h : n < 10
    · rw [toDigits_small h]
      simp [valFrom, digitVal_digitChar h]
      omega
    · have h10 : 10 ≤ n := le_of_not_lt h
      have hlt : n / 10 < n := by omega
      rw [toDigits_large h10]
      have hmod : n % 10 < 10 := by omega
      simp only [valFrom, List.foldl_append, List.foldl_cons, List.foldl_nil,
        List.length_append, List.length_cons, List.length_nil]
      have hrec := ih (n / 10) hlt a
      simp only [valFrom] at hrec
      rw [hrec, digitVal_digitChar hmod]
      have hpow : 10 ^ ((Nat.toDigits 10 (n / 10)).length + (0 + 1)) =
          10 ^ (Nat.toDigits 10 (n / 10)).length * 10 := by
        simp [pow_succ]
      rw [hpow]
      have := Nat.div_add_mod n 10
      ring_nf
      omega

theorem toDigits_injective {m n : Nat}
    (h : Nat.toDigits 10 m = Nat.toDigits 10 n) : m = n := by
  have hm := valFrom_toDigits m 0
  have hn := valFrom_toDigits n 0
  rw [h] at hm
  simp only [Nat.zero_mul, Nat.zero_add] at hm hn
  omega

theorem natRepr_injective {m n : Nat} (h : Nat.repr m = Nat.repr n) : m = n := by
  apply toDigits_injective (m := m) (n := n)
  have : (Nat.repr m).data = (Nat.repr n).data := by rw [h]
  exact this

/-! ### Counter keys: distinctness -/

theorem ipKey_data_get3 (ip : String) (w : Nat) :
    (ipKey ip w).data[3]? = some 'i' := by
  simp only [ipKey, String.data_append]
  rfl

theorem routeKey_data_get3 (route : String) (w : Nat) :
    (routeKey route w).data[3]? = some 'r' := by
  simp only [routeKey, String.data_append]
  rfl

theorem userKey_data_get3 (uid w : Nat) :
    (userKey uid w).data[3]? = some 'u' := by
  simp only [userKey, String.data_append]
  rfl

theorem ipKey_ne_routeKey (ip route : String) (w w' : Nat) :
    ipKey ip w ≠ routeKey route w' := by
  intro h
  have h3 : (ipKey ip w).data[3]? = (routeKey route w').data[3]? := by rw [h]
  rw [ipKey_data_get3, routeKey_data_get3] at h3
  exact absurd h3 (by decide)

theorem ipKey_ne_userKey (ip : String) (uid : Nat) (w w' : Nat) :
    ipKey ip w ≠ userKey uid w' := by
  intro h
  have h3 : (ipKey ip w).data[3]? = (userKey uid w').data[3]? := by rw [h]
  rw [ipKey_data_get3, userKey_data_get3] at h3
  exact absurd h3 (by decide)

theorem routeKey_ne_userKey (route : String) (uid : Nat) (w w' : Nat) :
    routeKey route w ≠ userKey uid w' := by
  intro h
  have h3 : (routeKey route w).data[3]? = (userKey uid w').data[3]? := by rw [h]
  rw [routeKey_data_get3, userKey_data_get3] at h3
  exact absurd h3 (by decide)

theorem ipKey_window_inj (ip : String) {w w' : Nat}
    (h : ipKey ip w = ipKey ip w') : w = w' := by
  have hd : (ipKey ip w).data = (ipKey ip w').data := by rw [h]
  simp only [ipKey, String.data_append] at hd
  exact natRepr_injective (String.ext (List.append_cancel_left hd))

theorem routeKey_window_inj (route : String) {w w' : Nat}
    (h : routeKey route w = routeKey route w') : w = w' := by
  have hd : (routeKey route w).data = (routeKey route w').data := by rw [h]
  simp only [routeKey, String.data_append] at hd
  exact natRepr_injective (String.ext (List.append_cancel_left hd))

theorem userKey_window_inj (uid : Nat) {w w' : Nat}
    (h : userKey uid w = userKey uid w') : w = w' := by
  have hd : (userKey uid w).data = (userKey uid w').data := by rw [h]
  simp only [userKey, String.data_append] at hd
  exact natRepr_injective (String.ext (List.append_cancel_left hd))

theorem rlKeys_nodup (ip : String) (uid : Option Nat) (route : String) (w : Nat) :
    (rlKeys ip uid route w).Nodup := by
  rcases uid with _ | u
  · simp [rlKeys, ipKey_ne_routeKey]
  · by_cases hu : u = 0
    · simp [rlKeys, hu, ipKey_ne_routeKey]
    · simp [rlKeys, hu, ipKey_ne_routeKey, ipKey_ne_userKey, routeKey_ne_userKey]

theorem rlKeys_window_disjoint (ip : String) (uid : Option Nat) (route : String)
    {w w' : Nat} (hw : w ≠ w') :
    ∀ k ∈ rlKeys ip uid route w, k ∉ rlKeys ip uid route w' := by
  intro k hk hk'
  rcases uid with _ | u
  · simp only [rlKeys, List.append_nil, List.mem_cons, List.mem_singleton,
      List.not_mem_nil, or_false] at hk hk'
    rcases hk with rfl | rfl
    · rcases hk' with h | h
      · exact hw (ipKey_window_inj ip h)
      · exact ipKey_ne_routeKey ip route w w' h
    · rcases hk' with h | h
      · exact ipKey_ne_routeKey ip route w' w h.symm
      · exact hw (routeKey_window_inj route h)
  · by_cases hu : u = 0
    · simp [rlKeys, hu] at hk hk'
      rcases hk with rfl | rfl
      · rcases hk' with h | h
        · exact hw (ipKey_window_inj ip h)
        · exact ipKey_ne_routeKey ip route w w' h
      · rcases hk' with h | h
        · exact ipKey_ne_routeKey ip route w' w h.symm
        · exact hw (routeKey_window_inj route h)
    · simp [rlKeys, hu] at hk hk'
      rcases hk with rfl | rfl | rfl
      · rcases hk' with h | h | h
        · exact hw (ipKey_window_inj ip h)
        · exact ipKey_ne_routeKey ip route w w' h
        · exact ipKey_ne_userKey ip u w w' h
      · rcases hk' with h | h | h
        · exact ipKey_ne_routeKey ip route w' w h.symm
        · exact hw (routeKey_window_inj route h)
        · exact routeKey_ne_userKey route u w w' h
      · rcases hk' with h | h | h
        · exact ipKey_ne_userKey ip u w' w h.symm
        · exact routeKey_ne_userKey route u w' w h.symm
        · exact hw (userKey_window_inj u h)

/-! ### Pipeline semantics -/

theorem pipelineExec_counters :
    ∀ (K : List String), K.Nodup → ∀ (c : String → Nat) (m : String),
      (pipelineExec c K).2 m = if m ∈ K then c m + 1 else c m := by
  intro K
  induction K with
  | nil => simp [pipelineExec]
  | cons k ks ih =>
    intro hK c m
    have hkn : k ∉ ks := (List.nodup_cons.mp hK).1
    have hks : ks.Nodup := (List.nodup_cons.mp hK).2
    simp only [pipelineExec]
    rw [ih hks (incr c k) m]
    by_cases hm : m ∈ ks
    · have hne : m ≠ k := fun e => hkn (e ▸ hm)
      simp [hm, incr, hne, List.mem_cons]
    · by_cases hmk : m = k
      · subst hmk
        simp [hm, incr]
      · simp [hm, hmk, incr, List.mem_cons]

theorem pipelineExec_results_agree :
    ∀ (K : List String) (c c' : String → Nat), (∀ k ∈ K, c k = c' k) →
      (pipelineExec c K).1 = (pipelineExec c' K).1 := by
  intro K
  induction K with
  | nil => simp [pipelineExec]
  | cons k ks ih =>
    intro c c' h
    simp only [pipelineExec, List.cons.injEq, true_and]
    refine ⟨?_, ?_⟩
    · simp [incr, h k (List.mem_cons_self k ks)]
    · apply ih
      intro m hm
      simp only [incr]
      by_cases hmk : m = k
      · subst hmk
        simp [h m (List.mem_cons_self m ks)]
      · simp [hmk, h m (List.mem_cons_of_mem k hm)]

theorem checkEvens_pipeline :
    ∀ (K : List String), K.Nodup → ∀ (c : String → Nat) (limit : Nat),
      checkEvens limit (pipelineExec c K).1 =
        K.any fun k => decide (c k + 1 > limit) := by
  intro K
  induction K with
  | nil => simp [pipelineExec, checkEvens]
  | cons k ks ih =>
    intro hK c limit
    have hkn : k ∉ ks := (List.nodup_cons.mp hK).1
    have hks : ks.Nodup := (List.nodup_cons.mp hK).2
    simp only [pipelineExec]
    have hagree : (pipelineExec (incr c k) ks).1 = (pipelineExec c ks).1 := by
      apply pipelineExec_results_agree
      intro m hm
      have hne : m ≠ k := fun e => hkn (e ▸ hm)
      simp [incr, hne]
    show (decide (incr c k k > limit) || checkEvens limit (pipelineExec (incr c k) ks).1) = _
    rw [hagree, ih hks c limit]
    simp [incr, List.any_cons]

/-- The enforcement decision and the state update of `_is_rate_limited`
on a reachable store: any post-increment count above the route-derived
limit denies, and exactly the window's keys are incremented by one. -/
theorem is_rate_limited_spec (store : CounterStore) (ip : String)
    (uid : Option Nat) (route : String) (now : Nat)
    (h : store.available = true) :
    (is_rate_limited store ip uid route now).1 =
      ((rlKeys ip uid route (now - now % window_size)).any fun k =>
        decide (store.counters k + 1 > routeLimit route)) ∧
    (is_rate_limited store ip uid route now).2.available = true ∧
    ∀ m, (is_rate_limited store ip uid route now).2.counters m =
      if m ∈ rlKeys ip uid route (now - now % window_size)
      then store.counters m + 1 else store.counters m := by
  simp only [is_rate_limited, h, if_true]
  refine ⟨?_, trivial, ?_⟩
  · exact checkEvens_pipeline _ (rlKeys_nodup ip uid route _) store.counters _
  · intro m
    exact pipelineExec_counters _ (rlKeys_nodup ip uid route _) store.counters m

/-- After `j` requests of one identity at one clock reading, starting
from a reachable store, the store is still reachable and exactly the
identity's keys for that window have grown by `j`. -/
theorem runN_counters (store : CounterStore) (ip : String) (uid : Option Nat)
    (route : String) (now : Nat) (h : store.available = true) :
    ∀ j, (runN store ip uid route now j).available = true ∧
      ∀ m, (runN store ip uid route now j).counters m =
        if m ∈ rlKeys ip uid route (now - now % window_size)
        then store.counters m + j else store.counters m := by
  intro j
  induction j with
  | zero =>
    refine ⟨h, fun m => ?_⟩
    split <;> simp [runN]
  | succ j ih =>
    obtain ⟨ha, hc⟩ := ih
    have hs := is_rate_limited_spec (runN store ip uid route now j) ip uid route now ha
    refine ⟨hs.2.1, fun m => ?_⟩
    show (is_rate_limited (runN store ip uid route now j) ip uid route now).2.counters m = _
    rw [hs.2.2 m, hc m]
    split <;> omega

/-! ### The claims -/

/-- C1 (counterexample): the claim requires `is_safe` to reject a URL
whose hostname resolves to several addresses of which one is private
(rejected wholesale).  In `c1Env` the allow-listed host `govdeals.com`
resolves to two addresses, the second of which is the private
`10.0.0.5`, yet `_is_safe_url` — which consults only the single address
`socket.gethostbyname` returns — accepts the URL, while the
specification's wholesale check rejects it. -/
theorem is_safe_url_multiaddress_counterexample :
    is_safe_url c1Env "http://govdeals.com/item" = true ∧
    is_safe_url_spec c1Env "http://govdeals.com/item" = false ∧
    c1Env.dns "govdeals.com" = [⟨142, 250, 72, 14⟩, ⟨10, 0, 0, 5⟩] ∧
    isPrivateAddress ⟨10, 0, 0, 5⟩ = true := by
  refine ⟨?_, ?_, ?_, ?_⟩ <;> decide

/-- C1 (amended): `is_safe(u)` is true iff the URL parses, its scheme is
http or https, its hostname is present (non-empty) and in the allowed
set, resolution succeeds, and the **single** address returned by the
resolver (the first resolved address) is not private; further resolved
addresses are never examined. -/
theorem is_safe_url_iff (env : Env) (url : String) :
    is_safe_url env url = true ↔
      ∃ p, env.parse url = some p ∧
        (p.scheme = "http" ∨ p.scheme = "https") ∧
        ∃ h, p.hostname = some h ∧ h ≠ "" ∧ env.allowed.contains h = true ∧
          ∃ ip, (env.dns h).head? = some ip ∧ isPrivateAddress ip = false := by
  unfold is_safe_url
  split
  · rename_i hp
    simp [hp]
  · rename_i p hp
    simp only [hp, Option.some.injEq, exists_eq_left']
    split_ifs with hs
    · simp only [hs, true_and]
      split
      · rename_i hh
        simp [hh]
      · rename_i h hh
        simp only [hh, Option.some.injEq, exists_eq_left']
        split
        · rename_i hd
          rcases hd with hd | hd
          · simp [hd]
          · simp at hd
            simp [hd]
        · rename_i hd
          simp only [not_or, not_not] at hd
          obtain ⟨hne, hmem⟩ := hd
          simp at hmem
          split
          · rename_i hdns
            simp [hdns, hne, hmem]
          · rename_i ip hdns
            simp [hdns, hne, hmem, exists_eq_left']
    · simp [hs]

/-- C3: if the Redis client cannot be established, or the counter store
raises on use, the dispatcher returns the inner application's response
unchanged and the counter store is untouched.  (The embedding is a total
function: both failure paths are caught in the source, so no exception
propagates.) -/
theorem rate_limit_fail_open (connected : Bool) (store : CounterStore)
    (req : Request) (uid : Option Nat) (now : Nat)
    (call_next : Request → Response)
    (h : connected = false ∨ store.available = false) :
    (rl_dispatch connected store req uid now call_next).1 = call_next req ∧
    (rl_dispatch connected store req uid now call_next).2 = store := by
  rcases h with h | h
  · subst h
    simp [rl_dispatch]
  · cases connected with
    | false => simp [rl_dispatch]
    | true =>
      simp only [rl_dispatch, Bool.not_true, is_rate_limited, h]
      simp

/-- C3 witness: a concrete unreachable store, at which the second
disjunct applies: the request passes through and the store is
unchanged. -/
theorem rate_limit_fail_open_witness :
    (rl_dispatch true { available := false, counters := fun _ => 0 } c2Req none 0
        fun _ => okResponse).1 = okResponse ∧
    (rl_dispatch true { available := false, counters := fun _ => 0 } c2Req none 0
        fun _ => okResponse).2 = { available := false, counters := fun _ => 0 } :=
  rate_limit_fail_open true { available := false, counters := fun _ => 0 } c2Req none 0
    (fun _ => okResponse) (Or.inr rfl)

/-- C2: an identity issuing exactly `limit` requests inside one fixed
window, with no other traffic on its counters, has them all allowed; its
`limit + 1`-th request in the same window is denied, and the denial
carries `retry_after` equal to the window size, which is 60 seconds. -/
theorem fixed_window_limit_enforced (ip : String) (uid : Option Nat)
    (route : String) (store : CounterStore) (now : Nat)
    (havail : store.available = true)
    (hzero : ∀ k ∈ rlKeys ip uid route (now - now % window_size),
      store.counters k = 0) :
    (∀ j, j < routeLimit route →
      (is_rate_limited (runN store ip uid route now j) ip uid route now).1 = false) ∧
    (is_rate_limited (runN store ip uid route now (routeLimit route))
      ip uid route now).1 = true ∧
    (∀ (req : Request) (call_next : Request → Response),
      req.path = route → extract_client_ip req = ip →
      (rl_dispatch true (runN store ip uid route now (routeLimit route))
          req uid now call_next).1 =
        { status := 429, headers := [("Retry-After", Nat.repr window_size)],
          retryAfterBody := some window_size }) ∧
    window_size = 60 := by
  have key_mem : ipKey ip (now - now % window_size) ∈
      rlKeys ip uid route (now - now % window_size) := by
    simp [rlKeys]
  have hdec : ∀ j,
      (is_rate_limited (runN store ip uid route now j) ip uid route now).1 =
        decide (j + 1 > routeLimit route) := by
    intro j
    obtain ⟨ha, hc⟩ := runN_counters store ip uid route now havail j
    rw [(is_rate_limited_spec _ ip uid route now ha).1]
    by_cases hj : j + 1 > routeLimit route
    · have hany : (rlKeys ip uid route (now - now % window_size)).any
          (fun k => decide ((runN store ip uid route now j).counters k + 1 >
            routeLimit route)) = true := by
        refine List.any_eq_true.mpr ⟨ipKey ip (now - now % window_size), key_mem, ?_⟩
        rw [hc _, if_pos key_mem, hzero _ key_mem]
        simpa using hj
      rw [hany]
      simp [hj]
    · have hany : (rlKeys ip uid route (now - now % window_size)).any
          (fun k => decide ((runN store ip uid route now j).counters k + 1 >
            routeLimit route)) = false := by
        refine List.any_eq_false.mpr ?_
        intro k hk
        rw [hc k, if_pos hk, hzero k hk]
        simpa using hj
      rw [hany]
      simp [hj]
  refine ⟨?_, ?_, ?_, rfl⟩
  · intro j hj
    rw [hdec j]
    simp
    omega
  · rw [hdec (routeLimit route)]
    simp
  · intro req call_next hpath hip
    have hden : (is_rate_limited (runN store ip uid route now (routeLimit route))
        ip uid route now).1 = true := by
      rw [hdec (routeLimit route)]
      simp
    simp only [rl_dispatch, hpath, hip, hden, Bool.not_true]
    simp

/-- C2 witness: on the route `/auth/login` (limit 5) and a fresh store,
the fifth request is still allowed, the sixth is denied, and the 429
carries retry-after 60. -/
theorem fixed_window_limit_enforced_witness :
    (is_rate_limited (runN emptyStore "1.2.3.4" none "/auth/login" 0 4)
      "1.2.3.4" none "/auth/login" 0).1 = false ∧
    (is_rate_limited (runN emptyStore "1.2.3.4" none "/auth/login" 0 5)
      "1.2.3.4" none "/auth/login" 0).1 = true ∧
    (rl_dispatch true (runN emptyStore "1.2.3.4" none "/auth/login" 0 5)
        c2Req none 0 fun _ => okResponse).1 =
      { status := 429, headers := [("Retry-After", Nat.repr window_size)],
        retryAfterBody := some window_size } ∧
    window_size = 60 := by
  have h := fixed_window_limit_enforced "1.2.3.4" none "/auth/login" emptyStore 0
    rfl (fun k _ => rfl)
  exact ⟨h.1 4 (by decide), h.2.1, h.2.2.1 c2Req (fun _ => okResponse) rfl (by decide),
    h.2.2.2⟩

/-- C4 (amended): on a reachable store a request is denied exactly when
some counter of its key set — per-IP, per-route, and per-user alike —
exceeds, after increment, the single limit derived from the route
(route-specific when configured, otherwise the process-wide default);
no dimension has a limit of its own. -/
theorem rate_limit_shared_limit_iff (store : CounterStore) (ip : String)
    (uid : Option Nat) (route : String) (now : Nat)
    (havail : store.available = true) :
    (is_rate_limited store ip uid route now).1 = true ↔
      ∃ k ∈ rlKeys ip uid route (now - now % window_size),
        store.counters k + 1 > routeLimit route := by
  rw [(is_rate_limited_spec store ip uid route now havail).1, List.any_eq_true]
  simp

/-- C4 witness: on a fresh store the first request on `/auth/login` is
allowed, as no counter reaches 1 + the route limit. -/
theorem rate_limit_shared_limit_iff_witness :
    (is_rate_limited emptyStore "1.2.3.4" none "/auth/login" 0).1 = false := by
  have h := rate_limit_shared_limit_iff emptyStore "1.2.3.4" none "/auth/login" 0 rfl
  cases hb : (is_rate_limited emptyStore "1.2.3.4" none "/auth/login" 0).1 with
  | false => rfl
  | true =>
    obtain ⟨k, _, hgt⟩ := h.mp hb
    have hgt' : (0 : Nat) + 1 > routeLimit "/auth/login" := hgt
    exact absurd hgt' (by decide)

/-- C4 (counterexample): no per-IP limit can explain the code's
decisions.  After five requests of `9.9.9.9` against `/vehicles`, a
request against `/auth/login` is denied although its route counter is 1
(so its IP counter, 6, must exceed the putative IP limit), while the
same IP's sixth request against `/vehicles` — IP counter also 6 — is
allowed (so 6 must not exceed it): the IP dimension has no limit of its
own; every dimension is checked against the current route's limit. -/
theorem per_dimension_limit_counterexample :
    (∃ ipLimit : Nat,
      ((is_rate_limited c4Store "9.9.9.9" none "/auth/login" 0).1 = true ↔
        ((is_rate_limited c4Store "9.9.9.9" none "/auth/login" 0).2.counters
            (ipKey "9.9.9.9" 0) > ipLimit ∨
         (is_rate_limited c4Store "9.9.9.9" none "/auth/login" 0).2.counters
            (routeKey "/auth/login" 0) > routeLimit "/auth/login")) ∧
      ((is_rate_limited c4Store "9.9.9.9" none "/vehicles" 0).1 = true ↔
        ((is_rate_limited c4Store "9.9.9.9" none "/vehicles" 0).2.counters
            (ipKey "9.9.9.9" 0) > ipLimit ∨
         (is_rate_limited c4Store "9.9.9.9" none "/vehicles" 0).2.counters
            (routeKey "/vehicles" 0) > routeLimit "/vehicles"))) = False := by
  apply eq_false
  rintro ⟨L, h1, h2⟩
  have e1 : (is_rate_limited c4Store "9.9.9.9" none "/auth/login" 0).1 = true := by
    decide
  have e2 : (is_rate_limited c4Store "9.9.9.9" none "/auth/login" 0).2.counters
      (ipKey "9.9.9.9" 0) = 6 := by decide
  have e3 : (is_rate_limited c4Store "9.9.9.9" none "/auth/login" 0).2.counters
      (routeKey "/auth/login" 0) = 1 := by decide
  have e4 : (is_rate_limited c4Store "9.9.9.9" none "/vehicles" 0).1 = false := by
    decide
  have e5 : (is_rate_limited c4Store "9.9.9.9" none "/vehicles" 0).2.counters
      (ipKey "9.9.9.9" 0) = 6 := by decide
  have e6 : (is_rate_limited c4Store "9.9.9.9" none "/vehicles" 0).2.counters
      (routeKey "/vehicles" 0) = 6 := by decide
  have e7 : routeLimit "/auth/login" = 5 := by decide
  have e8 : routeLimit "/vehicles" = 50 := by decide
  rw [e1, e2, e3, e7] at h1
  rw [e4, e5, e6, e8] at h2
  simp only [true_iff] at h1
  simp only [Bool.false_eq_true, false_iff, not_or] at h2
  rcases h1 with h1 | h1
  · exact absurd h1 h2.1
  · omega

/-- C5 (counterexample): a request declaring `application/json` whose
body fails to decode is NOT rejected: `_has_ssrf_risk` swallows the
decode error (`except ... pass`), reports no risk, and the dispatcher
passes the request through (status 200, not a 4xx). -/
theorem malformed_body_not_rejected_counterexample :
    c5Req.headers "content-type" = some "application/json" ∧
    c5Env.parseJson c5Req.body = none ∧
    has_ssrf_risk c5Env c5Req = false ∧
    (security_dispatch c5Env c5Req fun _ => okResponse).status = 200 := by
  exact ⟨rfl, rfl, by decide, by decide⟩

/-- C5 (amended): a body that fails to decode contributes nothing to the
SSRF verdict — the guard fails OPEN on malformed bodies, and the request
is flagged exactly when a query parameter carries an unsafe URL. -/
theorem malformed_body_fail_open (env : Env) (req : Request)
    (hb : env.parseJson req.body = none) :
    has_ssrf_risk env req =
      req.queryParams.any fun kv =>
        URL_KEYS.contains (lowerStr kv.1) && !(is_safe_url env kv.2) := by
  unfold has_ssrf_risk
  have hbody : (if req.headers "content-type" = some "application/json" then
      if req.body = "" then false
      else
        match env.parseJson req.body with
        | none => false
        | some (JValue.obj fields) =>
          fields.any fun kv =>
            match kv.2 with
            | JValue.str s => URL_KEYS.contains (lowerStr kv.1) && !(is_safe_url env s)
            | _ => false
        | some _ => false
     else false) = false := by
    split_ifs with hct hempty
    · rfl
    · rw [hb]
    · rfl
  rw [hbody, Bool.or_false]

/-- C5 amended witness: the concrete malformed-body request is flagged
exactly per its (empty) query parameters, hence not at all. -/
theorem malformed_body_fail_open_witness :
    has_ssrf_risk c5Env c5Req = false :=
  (malformed_body_fail_open c5Env c5Req rfl).trans (by decide)

/-- C6 (counterexample): the 400 URL-safety rejection is emitted before
the header loop runs, so it carries none of the security headers, though
the header set does contain the content-type-sniffing header. -/
theorem security_headers_missing_on_rejection_counterexample :
    (security_dispatch c6Env c6Req fun _ => okResponse).status = 400 ∧
    (security_dispatch c6Env c6Req fun _ => okResponse).headers = [] ∧
    ("X-Content-Type-Options", "nosniff") ∈ SECURITY_HEADERS := by
  exact ⟨by decide, by decide, by decide⟩

/-- C6 (amended): every response produced by the downstream handler
(i.e. whenever neither early rejection fires) is returned with the
complete fixed security header set appended; the middleware's own early
rejections (413 and 400) do not carry it. -/
theorem security_headers_on_passthrough (env : Env) (req : Request)
    (call_next : Request → Response)
    (hsize : ∀ n, req.contentLength = some n → n ≤ 10 * 1024 * 1024)
    (hrisk : has_ssrf_risk env req = false) :
    security_dispatch env req call_next =
      { call_next req with headers := (call_next req).headers ++ SECURITY_HEADERS } := by
  unfold security_dispatch
  cases hcl : req.contentLength with
  | none => simp [hrisk]
  | some n =>
    have hn := hsize n hcl
    have hineq : ¬ (n > 10 * 1024 * 1024) := by omega
    simp [hineq, hrisk]

/-- C6 amended witness: a risk-free request passes through and the
response carries exactly the security header set. -/
theorem security_headers_on_passthrough_witness :
    security_dispatch c5Env c2Req (fun _ => okResponse) =
      { status := 200, headers := SECURITY_HEADERS, retryAfterBody := none } := by
  have h := security_headers_on_passthrough c5Env c2Req (fun _ => okResponse)
    (fun n hn => nomatch hn) (by decide)
  exact h.trans (by decide)

/-- C7: the client identity resolver prefers, in order: the first truthy
trusted edge header (stripped, taken verbatim — in particular winning
over a simultaneously present forwarding chain), then the last entry of
the forwarding chain (stripped), then the transport peer address, then
the constant sentinel "unknown"; it is a total function and never fails
the request. -/
theorem extract_client_ip_preference (req : Request) :
    (∀ v, firstTruthy req EDGE_HEADERS = some v →
      extract_client_ip req = stripStr v) ∧
    (∀ v f, truthyHeader req "cf-connecting-ip" = some v →
      truthyHeader req "x-forwarded-for" = some f →
      extract_client_ip req = stripStr v) ∧
    (firstTruthy req EDGE_HEADERS = none →
      ∀ f, truthyHeader req "x-forwarded-for" = some f →
        extract_client_ip req = stripStr ((splitComma f).getLast?.getD "")) ∧
    (firstTruthy req EDGE_HEADERS = none →
      truthyHeader req "x-forwarded-for" = none →
      (∀ c, req.client = some c → extract_client_ip req = c) ∧
      (req.client = none → extract_client_ip req = "unknown")) := by
  refine ⟨?_, ?_, ?_, ?_⟩
  · intro v hv
    unfold extract_client_ip
    rw [hv]
  · intro v f hv _
    have hfirst : firstTruthy req EDGE_HEADERS = some v := by
      unfold EDGE_HEADERS firstTruthy
      rw [hv]
    unfold extract_client_ip
    rw [hfirst]
  · intro h0 f hf
    unfold extract_client_ip
    rw [h0, hf]
  · intro h0 hf
    constructor
    · intro c hc
      unfold extract_client_ip
      rw [h0, hf, hc]
    · intro hc
      unfold extract_client_ip
      rw [h0, hf, hc]

/-- C7 witness: with an edge header ` 1.2.3.4 ` and a disagreeing
forwarding chain both present, the resolver returns the stripped edge
value. -/
theorem extract_client_ip_preference_witness :
    extract_client_ip c7Req = "1.2.3.4" ∧
    truthyHeader c7Req "x-forwarded-for" = some "9.9.9.9, 8.8.8.8" := by
  refine ⟨?_, rfl⟩
  have h := (extract_client_ip_preference c7Req).2.1 " 1.2.3.4 " "9.9.9.9, 8.8.8.8"
    rfl rfl
  exact h.trans (by decide)

/-- C8: the window start baked into each counter key is the window
size's integer floor of the clock; keys of different windows are
disjoint, and therefore a request processed in one window (denied or
not, its increments included) does not change the admission decision of
a request in another window. -/
theorem window_independence (store : CounterStore) (ip : String)
    (uid : Option Nat) (route : String) (t1 t2 : Nat)
    (havail : store.available = true)
    (hw : t1 / window_size ≠ t2 / window_size) :
    (∀ t : Nat, t - t % window_size = window_size * (t / window_size)) ∧
    (∀ k ∈ rlKeys ip uid route (t1 - t1 % window_size),
      k ∉ rlKeys ip uid route (t2 - t2 % window_size)) ∧
    (is_rate_limited (is_rate_limited store ip uid route t1).2
        ip uid route t2).1 =
      (is_rate_limited store ip uid route t2).1 := by
  have hfloor : ∀ t : Nat, t - t % window_size = window_size * (t / window_size) := by
    intro t
    show t - t % 60 = 60 * (t / 60)
    omega
  have hw60 : t1 / 60 ≠ t2 / 60 := hw
  have hww : t1 - t1 % window_size ≠ t2 - t2 % window_size := by
    rw [hfloor t1, hfloor t2]
    show 60 * (t1 / 60) ≠ 60 * (t2 / 60)
    intro heq
    exact hw60 (by omega)
  have hdisj := rlKeys_window_disjoint ip uid route hww
  refine ⟨hfloor, hdisj, ?_⟩
  have h1 := is_rate_limited_spec store ip uid route t1 havail
  have h2 := is_rate_limited_spec (is_rate_limited store ip uid route t1).2
    ip uid route t2 h1.2.1
  rw [h2.1, (is_rate_limited_spec store ip uid route t2 havail).1]
  have hsame : ∀ k ∈ rlKeys ip uid route (t2 - t2 % window_size),
      (is_rate_limited store ip uid route t1).2.counters k = store.counters k := by
    intro k hk
    rw [h1.2.2 k]
    exact if_neg fun hk1 => hdisj k hk1 hk
  rw [Bool.eq_iff_iff]
  simp only [List.any_eq_true]
  constructor
  · rintro ⟨k, hk, hp⟩
    refine ⟨k, hk, ?_⟩
    rwa [hsame k hk] at hp
  · rintro ⟨k, hk, hp⟩
    refine ⟨k, hk, ?_⟩
    rwa [hsame k hk]

/-- C8 witness: one request at second 0 does not change the admission
decision of a request at second 60 (the next window). -/
theorem window_independence_witness :
    (is_rate_limited (is_rate_limited emptyStore "1.2.3.4" none "/upload" 0).2
        "1.2.3.4" none "/upload" 60).1 =
      (is_rate_limited emptyStore "1.2.3.4" none "/upload" 60).1 :=
  (window_independence emptyStore "1.2.3.4" none "/upload" 0 60 rfl (by decide)).2.2

/-- C9: the status query writes nothing — the counter store it returns
is the one it was given, for every reachability state — and on the
normal path it reports the full record: the route-derived limit, the
used count (maximum over the inspected keys), remaining = limit - used,
and the reset time at the end of the current window. -/
theorem status_query_no_side_effects (connected : Bool) (store : CounterStore)
    (ip : String) (uid : Option Nat) (route : String) (now : Nat) :
    (get_rate_limit_status connected store ip uid route now).2 = store ∧
    (connected = true → store.available = true →
      (get_rate_limit_status connected store ip uid route now).1 =
        .full (routeLimit route) (statusUsed store ip uid now)
          (routeLimit route - statusUsed store ip uid now)
          (now - now % window_size + window_size)
          (decide (statusUsed store ip uid now < routeLimit route))) := by
  constructor
  · unfold get_rate_limit_status
    split_ifs <;> rfl
  · rintro rfl hav
    unfold get_rate_limit_status statusUsed
    simp [hav]

/-- C9 witness: on a fresh store the status of `/upload` reads limit 10,
used 0, remaining 10, reset at 60, and the store is returned unchanged. -/
theorem status_query_no_side_effects_witness :
    (get_rate_limit_status true emptyStore "1.2.3.4" none "/upload" 0).2 = emptyStore ∧
    (get_rate_limit_status true emptyStore "1.2.3.4" none "/upload" 0).1 =
      .full 10 0 10 60 true := by
  have h := status_query_no_side_effects true emptyStore "1.2.3.4" none "/upload" 0
  exact ⟨h.1, (h.2 rfl rfl).trans (by decide)⟩

/-- C10: when the content type is not exactly `application/json`, the
body is never scanned: the SSRF verdict is exactly the query-parameter
scan, so a request whose only unsafe URL sits in its body is not
flagged. -/
theorem body_scan_requires_exact_content_type (env : Env) (req : Request)
    (h : ¬ req.headers "content-type" = some "application/json") :
    has_ssrf_risk env req =
      req.queryParams.any fun kv =>
        URL_KEYS.contains (lowerStr kv.1) && !(is_safe_url env kv.2) := by
  unfold has_ssrf_risk
  rw [if_neg h, Bool.or_false]

/-- C10 witness: a request with content type
`application/json; charset=utf-8` whose body decodes to an object with
an unsafe `url` field is not flagged. -/
theorem body_scan_requires_exact_content_type_witness :
    c10Req.headers "content-type" = some "application/json; charset=utf-8" ∧
    c10Env.parseJson c10Req.body =
      some (JValue.obj [("url", JValue.str "http://evil.internal/")]) ∧
    is_safe_url c10Env "http://evil.internal/" = false ∧
    has_ssrf_risk c10Env c10Req = false := by
  refine ⟨rfl, rfl, by decide, ?_⟩
  exact (body_scan_requires_exact_content_type c10Env c10Req (by decide)).trans
    (by decide)

end DealScan
